import Mathlib

/-!
Shallow embedding of the hydrogen-demo storefront application:
the request handler (`app/entry.server.tsx`), the route loaders of the
product, article, collection, home and policies routes, and the
suspense-boundary rendering of deferred data.  Vendor SDK functions that
the routes call but whose code is not part of the repository are modelled
explicitly, each with a doc comment stating what it models.
-/

/-- A name/value pair of a selected product option, as in the
storefront API `SelectedOption` type. -/
structure SelectedOption where
  name : String
  value : String
deriving DecidableEq, Repr

/-- A product variant; only the fields the embedded routes use are kept
(`id` and `selectedOptions` from the `ProductVariant` fragment). -/
structure ProductVariant where
  id : String
  selectedOptions : List SelectedOption
deriving DecidableEq, Repr

/-- A product as returned by the critical `PRODUCT_QUERY` of the product
route: `variants` is the `variants(first: 1).nodes` list and
`selectedVariant` is `variantBySelectedOptions` (null when no variant
matches the requested selected options). -/
structure Product where
  id : String
  title : String
  handle : String
  descriptionHtml : String
  selectedVariant : Option ProductVariant
  variants : List ProductVariant
deriving DecidableEq, Repr

/-- An article of a blog, from `ARTICLE_QUERY`. -/
structure Article where
  title : String
  contentHtml : String
deriving DecidableEq, Repr

/-- A blog as returned by `ARTICLE_QUERY`: `articleByHandle` is null when
the blog holds no article of the requested handle. -/
structure Blog where
  articleByHandle : Option Article
deriving DecidableEq, Repr

/-- A collection from `COLLECTION_QUERY`; pagination payload elided. -/
structure Collection where
  id : String
  handle : String
  title : String
  description : String
deriving DecidableEq, Repr

/-- A featured collection node from `FEATURED_COLLECTION_QUERY`. -/
structure FeaturedCollection where
  id : String
  title : String
  handle : String
deriving DecidableEq, Repr

/-- A recommended product node from `RECOMMENDED_PRODUCTS_QUERY`. -/
structure RecommendedProduct where
  id : String
  title : String
  handle : String
deriving DecidableEq, Repr

/-- The payload of `RECOMMENDED_PRODUCTS_QUERY`: `products.nodes`. -/
structure RecommendedProductsQueryResult where
  products : List RecommendedProduct
deriving DecidableEq, Repr

/-- The product object inside a `VARIANTS_QUERY` result. -/
structure VariantsProduct where
  variants : List ProductVariant
deriving DecidableEq, Repr

/-- The payload of the deferred `VARIANTS_QUERY`: `product` is null when
the handle matches no product. -/
structure ProductVariantsQueryResult where
  product : Option VariantsProduct
deriving DecidableEq, Repr

/-- A shop policy item from `POLICIES_QUERY`. -/
structure Policy where
  id : String
  title : String
  handle : String
deriving DecidableEq, Repr

/-- The shop object of `POLICIES_QUERY`: five policy fields, each of which
may be null. -/
structure Shop where
  privacyPolicy : Option Policy
  shippingPolicy : Option Policy
  termsOfService : Option Policy
  refundPolicy : Option Policy
  subscriptionPolicy : Option Policy
deriving DecidableEq, Repr

/-- A request URL, split into its path and its ordered query parameters
(the contents of `URLSearchParams`). -/
structure Url where
  pathname : String
  params : List (String × String)
deriving DecidableEq, Repr

/-- An inbound request as the loaders see it: its URL and, for the request
handler, the user-agent header value (none when the header is absent). -/
structure Request where
  url : Url
  userAgent : Option String
deriving DecidableEq, Repr

/-- JavaScript string falsiness of an optional route parameter: an absent
parameter and the empty string are both falsy (the `!handle` tests). -/
def strFalsy : Option String → Bool
  | none => true
  | some s => s = ""

/-- JavaScript `String.prototype.startsWith`, embedded on the character
lists of the strings. -/
def strStartsWith (s pre : String) : Bool :=
  pre.data.isPrefixOf s.data

/-- Tags naming the remote storefront queries the loaders can issue; a
loader run is recorded as the ordered list of tags it issued. -/
inductive QueryTag where
  | productQ
  | variantsQ
  | articleQ
  | collectionQ
  | featuredQ
  | recommendedQ
  | policiesQ
deriving DecidableEq, Repr

/-- A value stored in a deferred envelope: either a concrete value the
loader awaited (critical data) or a still-pending asynchronous value,
identified by the query that will resolve it (deferred data). -/
inductive DataValue (α : Type) where
  | resolved (value : α)
  | pending (tag : QueryTag)
deriving DecidableEq, Repr

/-- Whether an envelope entry is a concrete awaited value. -/
def DataValue.isResolved {α : Type} : DataValue α → Bool
  | .resolved _ => true
  | .pending _ => false

/-- Whether an envelope entry is a still-pending asynchronous value. -/
def DataValue.isPending {α : Type} : DataValue α → Bool
  | .resolved _ => false
  | .pending _ => true

/-- The possible outcomes of a loader: a thrown JavaScript `Error`, a
thrown `Response` with an HTTP status, a redirect response, or ordinary
data (`json`/`defer`) of the route data type `ε`. -/
inductive LoaderOutcome (ε : Type) where
  | errorThrown (msg : String)
  | httpError (status : Nat) (body : Option String)
  | redirectTo (status : Nat) (location : Url)
  | ok (data : ε)
deriving DecidableEq, Repr

/-- Whether a loader outcome is a thrown not-found response. -/
def LoaderOutcome.is404 {ε : Type} : LoaderOutcome ε → Bool
  | .httpError status _ => status = 404
  | _ => false

/-- Pagination variables of a collection query: page size plus the cursor
data of the request. -/
structure PaginationVariables where
  pageBy : Nat
  cursor : Option String
  direction : Option String
deriving DecidableEq, Repr

/-- The storefront query capability: one field per query document the
embedded loaders issue, mapping the query variables to the result the
remote API would return.  Deferred queries are never awaited inside a
loader, so only their tags appear in loader results. -/
structure Storefront where
  productQuery : String → List SelectedOption → Option Product
  articleQuery : String → String → Option Blog
  collectionQuery : String → PaginationVariables → Option Collection
  featuredCollectionsQuery : List FeaturedCollection
  policiesQuery : Option Shop

/-- Modelled from the spec: `getSelectedProductOptions` of the vendor SDK
is not repository code; per the spec, selected options come from the URL
query parameters of the request, in order. -/
def getSelectedProductOptions (request : Request) : List SelectedOption :=
  request.url.params.map (fun p => { name := p.1, value := p.2 })

/-- The option filter of the product loader, verbatim from the source:
drops options whose name starts with one of the predictive-search or
tracking markers. -/
def productOptionKeep (option : SelectedOption) : Bool :=
  !(strStartsWith option.name "_sid") &&
  !(strStartsWith option.name "_pos") &&
  !(strStartsWith option.name "_psq") &&
  !(strStartsWith option.name "_ss") &&
  !(strStartsWith option.name "_v") &&
  !(strStartsWith option.name "fbclid")

/-- The ignorable leading markers the product loader filters out. -/
def ignoredNameStarts : List String :=
  ["_sid", "_pos", "_psq", "_ss", "_v", "fbclid"]

/-- The selected options the product loader actually uses:
`getSelectedProductOptions(request).filter(...)`. -/
def loaderSelectedOptions (request : Request) : List SelectedOption :=
  (getSelectedProductOptions request).filter productOptionKeep

/-- `URLSearchParams.set`: replace the value of the first parameter of the
given name and drop any later ones, or append the pair when the name is
absent. -/
def setParam : List (String × String) → String → String → List (String × String)
  | [], name, value => [(name, value)]
  | (k, v) :: rest, name, value =>
    if k = name then (name, value) :: rest.filter (fun p => p.1 ≠ name)
    else (k, v) :: setParam rest name value

/-- Modelled from the spec: `getVariantUrl` of `~/utils` is repository code
not present under src/.  Per the spec it produces the canonical URL of a
variant: the product path, with the given selected options of the variant
appended onto the given search parameters as query parameters (each option
name set to the option value). -/
def getVariantUrl (pathname : String) (_handle : String)
    (selectedOptions : List SelectedOption)
    (searchParams : List (String × String)) : Url :=
  { pathname := pathname,
    params := selectedOptions.foldl
      (fun ps option => setParam ps option.name option.value) searchParams }

/-- The deferred envelope of the product route: `defer({product, variants})`. -/
structure ProductEnvelope where
  product : DataValue Product
  variants : DataValue ProductVariantsQueryResult
deriving DecidableEq, Repr

/-- `redirectToFirstVariant` of the product route: a 302 redirect to the
variant URL of the first variant of the product, built from the request
URL path and search parameters. -/
def redirectToFirstVariant (product : Product) (request : Request) :
    LoaderOutcome ProductEnvelope :=
  match product.variants.head? with
  | none => .errorThrown "TypeError: cannot read properties of undefined"
  | some firstVariant =>
    .redirectTo 302
      (getVariantUrl request.url.pathname product.handle
        firstVariant.selectedOptions request.url.params)

/-- The loader of the product route (`($locale).products.$handle.tsx`):
filters the selected options, validates the handle, awaits the critical
product query, 404s on a missing product, applies the default-variant /
redirect decision, then issues the deferred variants query and returns the
deferred envelope.  The second component is the ordered list of storefront
queries issued. -/
def productLoader (st : Storefront) (request : Request)
    (handle? : Option String) :
    LoaderOutcome ProductEnvelope × List QueryTag :=
  let selectedOptions := loaderSelectedOptions request
  match handle? with
  | none => (.errorThrown "Expected product handle to be defined", [])
  | some handle =>
    if handle = "" then
      (.errorThrown "Expected product handle to be defined", [])
    else
      match st.productQuery handle selectedOptions with
      | none => (.httpError 404 none, [.productQ])
      | some product =>
        if product.id = "" then (.httpError 404 none, [.productQ])
        else
          match product.variants.head? with
          | none =>
            (.errorThrown "TypeError: cannot read properties of undefined",
             [.productQ])
          | some firstVariant =>
            let firstVariantIsDefault := firstVariant.selectedOptions.any
              (fun option =>
                option.name = "Title" && option.value = "Default Title")
            if firstVariantIsDefault then
              (.ok { product := .resolved
                       { product with selectedVariant := some firstVariant },
                     variants := .pending .variantsQ },
               [.productQ, .variantsQ])
            else
              match product.selectedVariant with
              | none => (redirectToFirstVariant product request, [.productQ])
              | some _ =>
                (.ok { product := .resolved product,
                       variants := .pending .variantsQ },
                 [.productQ, .variantsQ])

/-- The loader of the article route (`($locale).blogs.$blogHandle.$articleHandle`):
validates both handles, 404s when either is missing, awaits the article
query and 404s when the blog holds no such article; the article data is
returned plain (`json`), nothing is deferred. -/
def articleLoader (st : Storefront)
    (blogHandle? articleHandle? : Option String) :
    LoaderOutcome Article × List QueryTag :=
  if strFalsy articleHandle? || strFalsy blogHandle? then
    (.httpError 404 (some "Not found"), [])
  else
    match blogHandle?, articleHandle? with
    | some blogHandle, some articleHandle =>
      match (st.articleQuery blogHandle articleHandle).bind Blog.articleByHandle with
      | none => (.httpError 404 none, [.articleQ])
      | some article => (.ok article, [.articleQ])
    | _, _ => (.httpError 404 (some "Not found"), [])

/-- Models the vendor `getPaginationVariables`: derives cursor pagination
variables for the given page size from the request URL query parameters. -/
def getPaginationVariables (request : Request) (pageBy : Nat) :
    PaginationVariables :=
  { pageBy := pageBy,
    cursor := (request.url.params.find? (fun p => p.1 = "cursor")).map Prod.snd,
    direction :=
      (request.url.params.find? (fun p => p.1 = "direction")).map Prod.snd }

/-- The loader of the collection route (`($locale).collections.$handle`):
redirects to `/collections` when the handle is missing, awaits the
collection query, 404s with a handle-naming body when no collection
matches, and otherwise returns the collection plain (`json`). -/
def collectionLoader (st : Storefront) (request : Request)
    (handle? : Option String) :
    LoaderOutcome Collection × List QueryTag :=
  let paginationVariables := getPaginationVariables request 8
  match handle? with
  | none => (.redirectTo 302 { pathname := "/collections", params := [] }, [])
  | some handle =>
    if handle = "" then
      (.redirectTo 302 { pathname := "/collections", params := [] }, [])
    else
      match st.collectionQuery handle paginationVariables with
      | none =>
        (.httpError 404 (some ("Collection " ++ handle ++ " not found")),
         [.collectionQ])
      | some collection => (.ok collection, [.collectionQ])

/-- The deferred envelope of the home route:
`defer({featuredCollection, recommendedProducts})`.  The featured
collection is `collections.nodes[0]` and is undefined (`none`) when the
awaited query returns no collections. -/
structure HomeEnvelope where
  featuredCollection : DataValue (Option FeaturedCollection)
  recommendedProducts : DataValue RecommendedProductsQueryResult
deriving DecidableEq, Repr

/-- The loader of the home route (`($locale)._index.tsx`): awaits the
featured-collection query, takes the first node without any presence
check, issues the deferred recommended-products query and returns the
envelope. -/
def homeLoader (st : Storefront) : LoaderOutcome HomeEnvelope × List QueryTag :=
  let collections := st.featuredCollectionsQuery
  let featuredCollection := collections.head?
  (.ok { featuredCollection := .resolved featuredCollection,
         recommendedProducts := .pending .recommendedQ },
   [.featuredQ, .recommendedQ])

/-- `Object.values(data.shop || {})` of the policies loader: the five
policy field values of the shop object in declaration order, nulls
included; the empty list when the shop object is absent. -/
def shopValues : Option Shop → List (Option Policy)
  | none => []
  | some shop =>
    [shop.privacyPolicy, shop.shippingPolicy, shop.termsOfService,
     shop.refundPolicy, shop.subscriptionPolicy]

/-- The loader of the policies index route
(`($locale).policies._index.tsx`): awaits the policies query, builds the
value list of the shop object and 404s only when that list is empty. -/
def policiesLoader (st : Storefront) :
    LoaderOutcome (List (Option Policy)) × List QueryTag :=
  let policies := shopValues st.policiesQuery
  if policies.length = 0 then
    (.httpError 404 (some "No policies found"), [.policiesQ])
  else
    (.ok policies, [.policiesQ])

/-- The policy items the `Policies` component actually renders: the map
over the list skips null entries (`if (!policy) return null`). -/
def renderedPolicyItems (policies : List (Option Policy)) : List Policy :=
  policies.filterMap id

/-- A render stream: the chunks already produced and the chunks still
pending at the moment the handler would return. -/
structure RenderStream where
  readyChunks : List String
  pendingChunks : List String
deriving DecidableEq, Repr

/-- `await body.allReady`: the stream after waiting for the full render,
every chunk produced and nothing pending. -/
def RenderStream.awaitAllReady (s : RenderStream) : RenderStream :=
  { readyChunks := s.readyChunks ++ s.pendingChunks, pendingChunks := [] }

/-- The outcome of `renderToReadableStream`: the body stream plus the
render errors reported through the `onError` callback. -/
structure RenderResult where
  stream : RenderStream
  renderErrors : List String
deriving DecidableEq, Repr

/-- Models the vendor `createContentSecurityPolicy` header serialization
from the two source directive lists (the quoting of the self and
unsafe-inline keywords is elided). -/
def cspHeader (defaultSrc styleSrc : List String) : String :=
  "default-src " ++ String.intercalate " " defaultSrc ++
    "; style-src " ++ String.intercalate " " styleSrc

/-- An HTTP response as built by the request handler. -/
structure HttpResponse where
  status : Nat
  headers : List (String × String)
  body : RenderStream
deriving DecidableEq, Repr

/-- What a run of the request handler produces: the errors it logged via
`console.error` and the response it returns.  The function is total: every
run returns a response. -/
structure HandleRequestOutput where
  loggedErrors : List String
  response : HttpResponse
deriving DecidableEq, Repr

/-- `handleRequest` of `app/entry.server.tsx`.  `isbot` is the crawler
classifier applied to the user-agent header; `dev` is the
`NODE_ENV === development` flag; `render` is the result of rendering the
page tree to a stream.  Each render error is logged and forces the status
to 500; a crawler request waits for the whole stream; the content-type and
content-security-policy headers are set on every response. -/
def handleRequest (isbot : Option String → Bool) (dev : Bool)
    (request : Request) (responseStatusCode : Nat)
    (responseHeaders : List (String × String)) (render : RenderResult) :
    HandleRequestOutput :=
  let localDirectives :=
    if dev then ["localhost:*", "ws://localhost:*", "ws://127.0.0.1:*"]
    else []
  let header := cspHeader
    (["self", "cdn.shopify.com", "shopify.com", "*.typekit.net", "data:"] ++
      localDirectives)
    (["self", "unsafe-inline", "cdn.shopify.com", "*.typekit.net", "data:"] ++
      localDirectives)
  let loggedErrors := render.renderErrors
  let status :=
    if render.renderErrors.isEmpty then responseStatusCode else 500
  let body := render.stream
  let body := if isbot request.userAgent then body.awaitAllReady else body
  let headers := setParam responseHeaders "Content-Type" "text/html"
  let headers := setParam headers "Content-Security-Policy" header
  { loggedErrors := loggedErrors,
    response := { status := status, headers := headers, body := body } }

/-- The eventual fate of one deferred value: its query resolved with a
value, or rejected. -/
inductive DeferredOutcome (α : Type) where
  | resolved (value : α)
  | rejected
deriving DecidableEq, Repr

/-- What a suspense region shows once its deferred value settles: the
resolved content, the error text of the boundary, or an error escalating
past the boundary because no error view was supplied. -/
inductive RegionView (β : Type) where
  | content (v : β)
  | errorText (msg : String)
  | escalatedError
deriving DecidableEq, Repr

/-- A suspension boundary around one deferred value: the fallback shown
while pending, the optional error view (the `errorElement` of `Await`),
and the render function applied to the resolved value. -/
structure AwaitBoundary (α β : Type) where
  fallback : β
  errorElement : Option String
  render : α → β

/-- `Await` semantics at a boundary: a resolved value renders through the
children; a rejection renders the error element when one was supplied and
otherwise escalates to the nearest error boundary. -/
def renderAwait {α β : Type} (b : AwaitBoundary α β) :
    DeferredOutcome α → RegionView β
  | .resolved v => .content (b.render v)
  | .rejected =>
    match b.errorElement with
    | some msg => .errorText msg
    | none => .escalatedError

/-- The variants region of the product page: a `ProductForm` over some
list of variants. -/
inductive ProductFormView where
  | form (variants : List ProductVariant)
deriving DecidableEq, Repr

/-- The suspension boundary of `ProductMain` around the deferred variants
value: fallback form with no variants, explicit error text, and on
resolution a form over `data.product?.variants.nodes || []`. -/
def productVariantsBoundary :
    AwaitBoundary ProductVariantsQueryResult ProductFormView :=
  { fallback := .form [],
    errorElement := some "There was a problem loading product variants",
    render := fun data =>
      .form ((data.product.map VariantsProduct.variants).getD []) }

/-- The recommended-products region of the home page: the loading text or
the carousel of products. -/
inductive HomeRecommendedView where
  | loadingText (msg : String)
  | carousel (products : List RecommendedProduct)
deriving DecidableEq, Repr

/-- The suspension boundary of `RecommendedProducts` on the home page: a
loading fallback, no error element on its `Await`, and on resolution a
carousel over the product nodes. -/
def recommendedProductsBoundary :
    AwaitBoundary RecommendedProductsQueryResult HomeRecommendedView :=
  { fallback := .loadingText "Loading...",
    errorElement := none,
    render := fun data => .carousel data.products }

/-- The product page as rendered from the critical product data and the
settled deferred variants value: title and description come straight from
critical data, the variants region from its boundary. -/
structure ProductPage where
  title : String
  descriptionHtml : String
  variantsRegion : RegionView ProductFormView
deriving DecidableEq, Repr

/-- The product page render: critical fields immediately, the variants
region through its suspension boundary. -/
def renderProductPage (product : Product)
    (variantsOutcome : DeferredOutcome ProductVariantsQueryResult) :
    ProductPage :=
  { title := product.title,
    descriptionHtml := product.descriptionHtml,
    variantsRegion := renderAwait productVariantsBoundary variantsOutcome }

/-- Modelled from the spec: in streamed rendering the response status is
sent with the initial shell, before any deferred value settles, so a
deferred outcome cannot change the already-sent status. -/
def streamedStatus {α : Type} (initialStatus : Nat)
    (_outcome : DeferredOutcome α) : Nat :=
  initialStatus

/-- A storefront on which every query comes back empty. -/
def emptyStorefront : Storefront :=
  { productQuery := fun _ _ => none,
    articleQuery := fun _ _ => none,
    collectionQuery := fun _ _ => none,
    featuredCollectionsQuery := [],
    policiesQuery := none }

/-- A concrete variant whose only selected option is Color Red. -/
def exVariantRed : ProductVariant :=
  { id := "gid-variant-1",
    selectedOptions := [{ name := "Color", value := "Red" }] }

/-- A concrete variant carrying the Title / Default Title marker option. -/
def exVariantDefault : ProductVariant :=
  { id := "gid-variant-1",
    selectedOptions := [{ name := "Title", value := "Default Title" }] }

/-- A concrete product whose requested options matched no variant
(`selectedVariant` null) and whose first variant is not the default. -/
def exProductNoMatch : Product :=
  { id := "gid-product-1",
    title := "Shirt",
    handle := "shirt",
    descriptionHtml := "A shirt.",
    selectedVariant := none,
    variants := [exVariantRed] }

/-- A concrete product whose first variant is the default-title variant. -/
def exProductDefault : Product :=
  { id := "gid-product-1",
    title := "Shirt",
    handle := "shirt",
    descriptionHtml := "A shirt.",
    selectedVariant := none,
    variants := [exVariantDefault] }

/-- A concrete product request carrying a tracking parameter and a
non-matching option selection. -/
def exRequest : Request :=
  { url := { pathname := "/products/shirt",
             params := [("fbclid", "x"), ("Color", "Blue")] },
    userAgent := none }

/-- A storefront on which the shirt handle resolves to the
no-matching-variant product. -/
def exStorefrontNoMatch : Storefront :=
  { emptyStorefront with
    productQuery := fun handle _ =>
      if handle = "shirt" then some exProductNoMatch else none }

/-- A storefront on which the shirt handle resolves to the default-variant
product. -/
def exStorefrontDefault : Storefront :=
  { emptyStorefront with
    productQuery := fun handle _ =>
      if handle = "shirt" then some exProductDefault else none }

/-- A concrete crawler classifier for witnesses: only the Googlebot
user-agent counts as a crawler. -/
def exIsbot : Option String → Bool :=
  fun userAgent => userAgent = some "Googlebot"

/-- A crawler request for the handler witnesses. -/
def exBotRequest : Request :=
  { url := { pathname := "/", params := [] }, userAgent := some "Googlebot" }

/-- A render result with one ready and one pending chunk and no errors. -/
def exRender : RenderResult :=
  { stream := { readyChunks := ["<html>"], pendingChunks := ["</html>"] },
    renderErrors := [] }

/-- A render result during which one render error occurred. -/
def exRenderErr : RenderResult :=
  { stream := { readyChunks := ["<html>"], pendingChunks := [] },
    renderErrors := ["boom"] }

/-- C3: for every request in which an internal render error occurs, the
request handler logs the error and force-sets the status of the returned
response to 500.  The handler is embedded as a total function, so it
returns a response (never throws past this boundary) on every input. -/
theorem handleRequest_render_error_500
    (isbot : Option String → Bool) (dev : Bool) (request : Request)
    (responseStatusCode : Nat) (responseHeaders : List (String × String))
    (render : RenderResult) (h : render.renderErrors ≠ []) :
    (handleRequest isbot dev request responseStatusCode responseHeaders
        render).loggedErrors = render.renderErrors ∧
    (handleRequest isbot dev request responseStatusCode responseHeaders
        render).response.status = 500 := by
  unfold handleRequest
  simp [List.isEmpty_iff, h]

/-- Witness for C3 at a concrete erroring render. -/
theorem handleRequest_render_error_500_witness :
    (handleRequest exIsbot false exBotRequest 200 [] exRenderErr).loggedErrors
        = ["boom"] ∧
    (handleRequest exIsbot false exBotRequest 200 []
        exRenderErr).response.status = 500 :=
  handleRequest_render_error_500 exIsbot false exBotRequest 200 [] exRenderErr
    (by decide)

/-- C4: a request whose user-agent the crawler classifier accepts gets a
fully buffered body (all chunks ready, none pending) equal to the awaited
stream; every other request gets the stream back as it was, with its
pending chunks intact, for progressive delivery. -/
theorem handleRequest_crawler_full_buffer
    (isbot : Option String → Bool) (dev : Bool) (request : Request)
    (responseStatusCode : Nat) (responseHeaders : List (String × String))
    (render : RenderResult) :
    (isbot request.userAgent = true →
      (handleRequest isbot dev request responseStatusCode responseHeaders
          render).response.body = render.stream.awaitAllReady ∧
      (handleRequest isbot dev request responseStatusCode responseHeaders
          render).response.body.pendingChunks = []) ∧
    (isbot request.userAgent = false →
      (handleRequest isbot dev request responseStatusCode responseHeaders
          render).response.body = render.stream) := by
  unfold handleRequest
  constructor
  · intro hb
    simp [hb, RenderStream.awaitAllReady]
  · intro hb
    simp [hb]

/-- Witness for C4: a crawler request ends with no pending chunks, a plain
request gets the unbuffered stream back. -/
theorem handleRequest_crawler_full_buffer_witness :
    (handleRequest exIsbot false exBotRequest 200 []
        exRender).response.body.pendingChunks = [] ∧
    (handleRequest exIsbot false exRequest 200 []
        exRender).response.body = exRender.stream :=
  ⟨((handleRequest_crawler_full_buffer exIsbot false exBotRequest 200 []
      exRender).1 (by decide)).2,
   (handleRequest_crawler_full_buffer exIsbot false exRequest 200 []
      exRender).2 (by decide)⟩

/-- The chained boolean filter of the product loader accepts an option
exactly when its name starts with none of the ignorable markers. -/
theorem productOptionKeep_iff (option : SelectedOption) :
    productOptionKeep option = true ↔
      ∀ pre ∈ ignoredNameStarts, strStartsWith option.name pre = false := by
  simp only [productOptionKeep, ignoredNameStarts, Bool.and_eq_true,
    Bool.not_eq_true', List.forall_mem_cons, List.forall_mem_nil]
  tauto

/-- C8: the selected options the product loader uses are exactly the URL
query-parameter options whose names do not start with one of the markers
_sid, _pos, _psq, _ss, _v, fbclid; the kept options appear in their
original order (the filtered list is a sublist of the full option list). -/
theorem productLoader_option_filter (request : Request) :
    (∀ option : SelectedOption,
        option ∈ loaderSelectedOptions request ↔
          option ∈ getSelectedProductOptions request ∧
            ∀ pre ∈ ignoredNameStarts,
              strStartsWith option.name pre = false) ∧
    (loaderSelectedOptions request).Sublist (getSelectedProductOptions request) := by
  constructor
  · intro option
    rw [loaderSelectedOptions, List.mem_filter, productOptionKeep_iff]
  · exact List.filter_sublist _

/-- Witness for C8 at the concrete request: the tracking parameter is
dropped, the color option is kept, and order is preserved. -/
theorem productLoader_option_filter_witness :
    ({ name := "Color", value := "Blue" } ∈ loaderSelectedOptions exRequest ↔
      ({ name := "Color", value := "Blue" } ∈ getSelectedProductOptions exRequest ∧
        ∀ pre ∈ ignoredNameStarts,
          strStartsWith "Color" pre = false)) ∧
    (loaderSelectedOptions exRequest).Sublist (getSelectedProductOptions exRequest) :=
  ⟨(productLoader_option_filter exRequest).1 { name := "Color", value := "Blue" },
   (productLoader_option_filter exRequest).2⟩

/-- C9: whenever the awaited product query returns a product whose first
variant carries the option Title with value Default Title, the loader
returns the deferred envelope whose product has that first variant as its
selected variant, and no redirect happens, whatever the filtered request
options matched. -/
theorem productLoader_default_variant_no_redirect
    (st : Storefront) (request : Request) (handle : String) (product : Product)
    (firstVariant : ProductVariant)
    (hhandle : handle ≠ "")
    (hq : st.productQuery handle (loaderSelectedOptions request) = some product)
    (hid : product.id ≠ "")
    (hfirst : product.variants.head? = some firstVariant)
    (hdefault : firstVariant.selectedOptions.any
        (fun option =>
          option.name = "Title" && option.value = "Default Title") = true) :
    productLoader st request (some handle) =
      (.ok { product := .resolved
               { product with selectedVariant := some firstVariant },
             variants := .pending .variantsQ },
       [.productQ, .variantsQ]) := by
  unfold productLoader
  simp [hhandle, hq, hid, hfirst, hdefault]

/-- Witness for C9: the default-variant storefront product run ends in the
envelope with the first variant selected. -/
theorem productLoader_default_variant_no_redirect_witness :
    productLoader exStorefrontDefault exRequest (some "shirt") =
      (.ok { product := .resolved
               { exProductDefault with selectedVariant := some exVariantDefault },
             variants := .pending .variantsQ },
       [.productQ, .variantsQ]) :=
  productLoader_default_variant_no_redirect exStorefrontDefault exRequest
    "shirt" exProductDefault exVariantDefault (by decide) (by decide)
    (by decide) (by decide) (by decide)

/-- C10: when the shop query resolves with a shop object all of whose
policy fields are null, the policies loader does not 404 (the value list
counts the nulls, so it has length five) and the page renders an empty
policy list; the 404 arises exactly when the shop object is absent. -/
theorem policiesLoader_null_policies_not_404
    (st : Storefront) (shop : Shop)
    (hq : st.policiesQuery = some shop)
    (hp : shop.privacyPolicy = none) (hs : shop.shippingPolicy = none)
    (ht : shop.termsOfService = none) (hr : shop.refundPolicy = none)
    (hsub : shop.subscriptionPolicy = none) :
    policiesLoader st = (.ok [none, none, none, none, none], [.policiesQ]) ∧
    (policiesLoader st).1.is404 = false ∧
    renderedPolicyItems [none, none, none, none, none] = [] ∧
    (∀ (st2 : Storefront) (shop2 : Shop), st2.policiesQuery = some shop2 →
        (policiesLoader st2).1.is404 = false) ∧
    (∀ st2 : Storefront, st2.policiesQuery = none →
        policiesLoader st2 =
          (.httpError 404 (some "No policies found"), [.policiesQ])) := by
  refine ⟨?_, ?_, ?_, ?_, ?_⟩
  · unfold policiesLoader shopValues
    simp [hq, hp, hs, ht, hr, hsub]
  · unfold policiesLoader shopValues
    simp [hq, hp, hs, ht, hr, hsub, LoaderOutcome.is404]
  · rfl
  · intro st2 shop2 hq2
    unfold policiesLoader shopValues
    simp [hq2, LoaderOutcome.is404]
  · intro st2 hq2
    unfold policiesLoader shopValues
    simp [hq2]

/-- Witness for C10 at the all-null shop and the absent shop. -/
theorem policiesLoader_null_policies_not_404_witness :
    policiesLoader
        { emptyStorefront with
          policiesQuery := some
            { privacyPolicy := none, shippingPolicy := none,
              termsOfService := none, refundPolicy := none,
              subscriptionPolicy := none } } =
      (.ok [none, none, none, none, none], [.policiesQ]) ∧
    policiesLoader emptyStorefront =
      (.httpError 404 (some "No policies found"), [.policiesQ]) :=
  ⟨(policiesLoader_null_policies_not_404
      { emptyStorefront with
        policiesQuery := some
          { privacyPolicy := none, shippingPolicy := none,
            termsOfService := none, refundPolicy := none,
            subscriptionPolicy := none } }
      { privacyPolicy := none, shippingPolicy := none,
        termsOfService := none, refundPolicy := none,
        subscriptionPolicy := none }
      rfl rfl rfl rfl rfl rfl).1,
   ((policiesLoader_null_policies_not_404
      { emptyStorefront with
        policiesQuery := some
          { privacyPolicy := none, shippingPolicy := none,
            termsOfService := none, refundPolicy := none,
            subscriptionPolicy := none } }
      { privacyPolicy := none, shippingPolicy := none,
        termsOfService := none, refundPolicy := none,
        subscriptionPolicy := none }
      rfl rfl rfl rfl rfl rfl).2.2.2.2) emptyStorefront rfl⟩

/-- C7: every deferred envelope a loader returns has its critical keys
already resolved and its deferred keys still pending, passed through
as-is: the product envelope holds a resolved product and the pending
variants query, the home envelope a resolved featured collection and the
pending recommended-products query. -/
theorem loader_envelopes_resolved_pending
    (st : Storefront) (request : Request) (handle? : Option String) :
    (∀ (e : ProductEnvelope) (trace : List QueryTag),
        productLoader st request handle? = (.ok e, trace) →
          e.product.isResolved = true ∧ e.variants = .pending .variantsQ) ∧
    (∀ (e : HomeEnvelope) (trace : List QueryTag),
        homeLoader st = (.ok e, trace) →
          e.featuredCollection.isResolved = true ∧
            e.recommendedProducts = .pending .recommendedQ) := by
  constructor
  · intro e trace he
    cases handle? with
    | none => simp [productLoader] at he
    | some handle =>
      by_cases hh : handle = ""
      · simp [productLoader, hh] at he
      · cases hq : st.productQuery handle (loaderSelectedOptions request) with
        | none => simp [productLoader, hh, hq] at he
        | some product =>
          by_cases hid : product.id = ""
          · simp [productLoader, hh, hq, hid] at he
          · cases hfv : product.variants.head? with
            | none => simp [productLoader, hh, hq, hid, hfv] at he
            | some firstVariant =>
              by_cases hdef : (firstVariant.selectedOptions.any
                  fun option =>
                    decide (option.name = "Title") &&
                      decide (option.value = "Default Title")) = true
              · simp [productLoader, hh, hq, hid, hfv, hdef] at he
                obtain ⟨he1, -⟩ := he
                subst he1
                exact ⟨rfl, rfl⟩
              · cases hsel : product.selectedVariant with
                | none =>
                  simp [productLoader, redirectToFirstVariant, hh, hq, hid,
                    hfv, hdef, hsel] at he
                | some v =>
                  simp [productLoader, hh, hq, hid, hfv, hdef, hsel] at he
                  obtain ⟨he1, -⟩ := he
                  subst he1
                  exact ⟨rfl, rfl⟩
  · intro e trace he
    unfold homeLoader at he
    simp only [Prod.mk.injEq, LoaderOutcome.ok.injEq] at he
    obtain ⟨he1, -⟩ := he
    subst he1
    exact ⟨rfl, rfl⟩

/-- The envelope the default-variant witness run produces. -/
def exProductEnvelope : ProductEnvelope :=
  { product := .resolved
      { exProductDefault with selectedVariant := some exVariantDefault },
    variants := .pending .variantsQ }

/-- The envelope the home loader produces on the empty storefront. -/
def exHomeEnvelope : HomeEnvelope :=
  { featuredCollection := .resolved none,
    recommendedProducts := .pending .recommendedQ }

/-- Witness for C7 at concrete envelope-returning runs of the product and
home loaders. -/
theorem loader_envelopes_resolved_pending_witness :
    (exProductEnvelope.product.isResolved = true ∧
      exProductEnvelope.variants = .pending .variantsQ) ∧
    (exHomeEnvelope.featuredCollection.isResolved = true ∧
      exHomeEnvelope.recommendedProducts = .pending .recommendedQ) :=
  ⟨(loader_envelopes_resolved_pending exStorefrontDefault exRequest
      (some "shirt")).1 exProductEnvelope [.productQ, .variantsQ] (by decide),
   (loader_envelopes_resolved_pending exStorefrontDefault exRequest
      (some "shirt")).2 exHomeEnvelope [.featuredQ, .recommendedQ] (by decide)⟩

/-- Counterexample to C1: on a storefront whose awaited featured-collection
query yields no collection, the home loader does not fail with a 404 — it
returns its envelope with an undefined featured collection and still
issues the deferred recommended-products query. -/
theorem homeLoader_missing_featured_counterexample :
    homeLoader emptyStorefront =
      (.ok { featuredCollection := .resolved none,
             recommendedProducts := .pending .recommendedQ },
       [.featuredQ, .recommendedQ]) ∧
    (homeLoader emptyStorefront).1.is404 = false ∧
    QueryTag.recommendedQ ∈ (homeLoader emptyStorefront).2 := by
  decide

/-- C1 amended: for the product, article, collection and policies loaders,
a missing critical entity yields a thrown 404 response and the query trace
stops at the critical query, so no deferred query is executed after the
failure; the home loader is the exception — a missing featured collection
still returns the envelope and still issues the deferred
recommended-products query. -/
theorem loaders_missing_entity_404_amended
    (st : Storefront) (request : Request)
    (handle blogHandle articleHandle : String) :
    (handle ≠ "" →
      st.productQuery handle (loaderSelectedOptions request) = none →
      productLoader st request (some handle) =
        (.httpError 404 none, [.productQ])) ∧
    (blogHandle ≠ "" → articleHandle ≠ "" →
      (st.articleQuery blogHandle articleHandle).bind Blog.articleByHandle =
          none →
      articleLoader st (some blogHandle) (some articleHandle) =
        (.httpError 404 none, [.articleQ])) ∧
    (handle ≠ "" →
      st.collectionQuery handle (getPaginationVariables request 8) = none →
      collectionLoader st request (some handle) =
        (.httpError 404 (some ("Collection " ++ handle ++ " not found")),
         [.collectionQ])) ∧
    (st.policiesQuery = none →
      policiesLoader st =
        (.httpError 404 (some "No policies found"), [.policiesQ])) ∧
    (st.featuredCollectionsQuery = [] →
      homeLoader st =
        (.ok { featuredCollection := .resolved none,
               recommendedProducts := .pending .recommendedQ },
         [.featuredQ, .recommendedQ])) := by
  refine ⟨?_, ?_, ?_, ?_, ?_⟩
  · intro hh hq
    simp [productLoader, hh, hq]
  · intro hb ha hq
    simp [articleLoader, strFalsy, hb, ha, hq]
  · intro hh hq
    simp [collectionLoader, hh, hq]
  · intro hq
    simp [policiesLoader, shopValues, hq]
  · intro hq
    simp [homeLoader, hq]

/-- Witness for C1 at the empty storefront: every loader with a missing
critical entity 404s except the home loader. -/
theorem loaders_missing_entity_404_amended_witness :
    productLoader emptyStorefront exRequest (some "shirt") =
      (.httpError 404 none, [.productQ]) ∧
    articleLoader emptyStorefront (some "news") (some "hello") =
      (.httpError 404 none, [.articleQ]) ∧
    collectionLoader emptyStorefront exRequest (some "shirt") =
      (.httpError 404 (some ("Collection " ++ "shirt" ++ " not found")),
       [.collectionQ]) ∧
    policiesLoader emptyStorefront =
      (.httpError 404 (some "No policies found"), [.policiesQ]) ∧
    homeLoader emptyStorefront =
      (.ok { featuredCollection := .resolved none,
             recommendedProducts := .pending .recommendedQ },
       [.featuredQ, .recommendedQ]) := by
  have h := loaders_missing_entity_404_amended emptyStorefront exRequest
    "shirt" "news" "hello"
  exact ⟨h.1 (by decide) rfl, h.2.1 (by decide) (by decide) rfl,
    h.2.2.1 (by decide) rfl, h.2.2.2.1 rfl, h.2.2.2.2 rfl⟩

/-- Counterexample to C2: a request carrying a tracking parameter that the
loader filtered out of the selected options still keeps that parameter in
the redirect URL, so the redirect query parameters are not exactly the
selected options of the first variant. -/
theorem productLoader_redirect_extra_params_counterexample :
    productLoader exStorefrontNoMatch exRequest (some "shirt") =
      (.redirectTo 302
         { pathname := "/products/shirt",
           params := [("fbclid", "x"), ("Color", "Red")] },
       [.productQ]) ∧
    [("fbclid", "x"), ("Color", "Red")] ≠
      exVariantRed.selectedOptions.map
        (fun option => (option.name, option.value)) := by
  decide

/-- C2 amended: when the resolved product has no variant matching the
filtered selected options and its first variant is not the default, the
loader returns a 302 redirect whose URL keeps the request path and whose
query parameters are the request search parameters with each selected
option of the first variant set onto them — so they contain the first
variant options but may retain other request parameters — and the query
trace stops at the critical query: the redirect short-circuits the loader
before the deferred variants query is issued. -/
theorem productLoader_redirect_first_variant_amended
    (st : Storefront) (request : Request) (handle : String) (product : Product)
    (firstVariant : ProductVariant)
    (hhandle : handle ≠ "")
    (hq : st.productQuery handle (loaderSelectedOptions request) = some product)
    (hid : product.id ≠ "")
    (hfirst : product.variants.head? = some firstVariant)
    (hnotdefault : firstVariant.selectedOptions.any
        (fun option =>
          option.name = "Title" && option.value = "Default Title") = false)
    (hnosel : product.selectedVariant = none) :
    productLoader st request (some handle) =
      (.redirectTo 302
         { pathname := request.url.pathname,
           params := firstVariant.selectedOptions.foldl
             (fun ps option => setParam ps option.name option.value)
             request.url.params },
       [.productQ]) := by
  unfold productLoader redirectToFirstVariant getVariantUrl
  simp [hhandle, hq, hid, hfirst, hnotdefault, hnosel]

/-- Witness for C2 at the tracking-parameter request and the
no-matching-variant product. -/
theorem productLoader_redirect_first_variant_amended_witness :
    productLoader exStorefrontNoMatch exRequest (some "shirt") =
      (.redirectTo 302
         { pathname := exRequest.url.pathname,
           params := exVariantRed.selectedOptions.foldl
             (fun ps option => setParam ps option.name option.value)
             exRequest.url.params },
       [.productQ]) :=
  productLoader_redirect_first_variant_amended exStorefrontNoMatch exRequest
    "shirt" exProductNoMatch exVariantRed (by decide) (by decide) (by decide)
    (by decide) (by decide) (by decide)

/-- Counterexample to C5: the recommended-products boundary of the home
route supplies no error element, so a rejection of its deferred query
escalates past the boundary instead of rendering a designated fallback
error text in that region. -/
theorem recommendedProducts_no_error_element_counterexample :
    recommendedProductsBoundary.errorElement = none ∧
    renderAwait recommendedProductsBoundary DeferredOutcome.rejected =
      RegionView.escalatedError :=
  ⟨rfl, rfl⟩

/-- C5 amended: the variants boundary of the product route supplies the
explicit error text and isolates a rejection — the page keeps its already
streamed 200 status, the error text renders in the variants region only,
and the critical title and description fields still render; the
recommended-products boundary of the home route supplies no error element,
so a rejection there escalates past the boundary instead. -/
theorem deferred_error_views_amended (product : Product) :
    (renderProductPage product DeferredOutcome.rejected).variantsRegion =
      RegionView.errorText "There was a problem loading product variants" ∧
    (renderProductPage product DeferredOutcome.rejected).title =
      product.title ∧
    (renderProductPage product DeferredOutcome.rejected).descriptionHtml =
      product.descriptionHtml ∧
    streamedStatus 200
        (DeferredOutcome.rejected :
          DeferredOutcome ProductVariantsQueryResult) = 200 ∧
    renderAwait recommendedProductsBoundary DeferredOutcome.rejected =
      RegionView.escalatedError :=
  ⟨rfl, rfl, rfl, rfl, rfl⟩

/-- Counterexample to C6: a missing handle makes the product loader throw a
generic error (fatal 500 semantics, not a 404 response) and the collection
loader return a redirect to the collections index — neither is a not-found
result. -/
theorem param_validation_result_counterexample :
    productLoader emptyStorefront exRequest none =
      (.errorThrown "Expected product handle to be defined", []) ∧
    (productLoader emptyStorefront exRequest none).1.is404 = false ∧
    collectionLoader emptyStorefront exRequest none =
      (.redirectTo 302 { pathname := "/collections", params := [] }, []) ∧
    (collectionLoader emptyStorefront exRequest none).1.is404 = false := by
  decide

/-- C6 amended: every loader with required path parameters validates them
before issuing any remote query — the query trace of a failed validation
is empty — but the failure modes differ: the product loader throws a
generic error, the article loader throws a 404 not-found response, and the
collection loader returns a redirect to the collections index. -/
theorem loaders_param_validation_amended
    (st : Storefront) (request : Request)
    (blogHandle? articleHandle? : Option String) :
    productLoader st request none =
      (.errorThrown "Expected product handle to be defined", []) ∧
    productLoader st request (some "") =
      (.errorThrown "Expected product handle to be defined", []) ∧
    ((strFalsy articleHandle? || strFalsy blogHandle?) = true →
      articleLoader st blogHandle? articleHandle? =
        (.httpError 404 (some "Not found"), [])) ∧
    collectionLoader st request none =
      (.redirectTo 302 { pathname := "/collections", params := [] }, []) ∧
    collectionLoader st request (some "") =
      (.redirectTo 302 { pathname := "/collections", params := [] }, []) := by
  refine ⟨rfl, ?_, ?_, rfl, ?_⟩
  · simp [productLoader]
  · intro hfal
    simp [articleLoader, hfal]
  · simp [collectionLoader]

/-- Witness for C6 at absent article-route parameters. -/
theorem loaders_param_validation_amended_witness :
    articleLoader emptyStorefront none none =
      (.httpError 404 (some "Not found"), []) :=
  (loaders_param_validation_amended emptyStorefront exRequest none none).2.2.1
    (by decide)
